import Mathlib

/-!
Verification of the `ai-commit` command-line assistant against its
natural-language specification.  The TypeScript sources are shallowly
embedded: each JavaScript string operation used by the code is modelled by an
executable Lean function on `String`/`List Char`, interactive input is passed
in as explicit arguments, and the effect of each workflow (subprocess calls,
generation calls, console output, exit status) is returned as data.
-/

namespace AICommit

/-! ## JavaScript string primitives -/

/-- The whitespace characters recognised by JavaScript's `String.prototype.trim`
(the ASCII ones; the sources only ever deal with ASCII whitespace). -/
def isJsWhitespace (c : Char) : Bool :=
  c = ' ' || c = '\t' || c = '\n' || c = '\r' || c = '\x0b' || c = '\x0c'

/-- JavaScript `s.trim()`: strip leading and trailing whitespace. -/
def jsTrim (s : String) : String :=
  ⟨((s.data.dropWhile isJsWhitespace).reverse.dropWhile isJsWhitespace).reverse⟩

/-- JavaScript `s.toLowerCase()` on the ASCII range. -/
def jsToLower (s : String) : String :=
  ⟨s.data.map Char.toLower⟩

/-- Does the character list `s` start with the character list `p`? -/
def charsStartWith : List Char → List Char → Bool
  | _, [] => true
  | [], _ :: _ => false
  | c :: cs, p :: ps => c = p && charsStartWith cs ps

/-- Auxiliary scan for substring containment. -/
def strIncludesAux (pat : List Char) : List Char → Bool
  | [] => charsStartWith [] pat
  | c :: cs => charsStartWith (c :: cs) pat || strIncludesAux pat cs

/-- JavaScript `s.includes(pat)`: substring containment. -/
def strIncludes (s pat : String) : Bool :=
  strIncludesAux pat.data s.data

/-- Auxiliary splitter for `splitLines`. -/
def splitLinesAux : List Char → List Char → List String
  | [], cur => [⟨cur.reverse⟩]
  | c :: rest, cur =>
    if c = '\n' then ⟨cur.reverse⟩ :: splitLinesAux rest []
    else splitLinesAux rest (c :: cur)

/-- JavaScript `s.split('\n')`. -/
def splitLines (s : String) : List String :=
  splitLinesAux s.data []

/-! ## `lib/formatter.ts` — commit-message confirmation

`confirmCommitMessage` shows the generated message and reads an answer; when
the answer is `n`/`no` it reads one more line (the replacement).  Both reads
are passed here as arguments, and the function returns the commit message the
promise resolves with. -/

/-- The value `confirmCommitMessage(message)` resolves with, given the first
terminal answer and (when it is consulted) the replacement line. -/
def confirmCommitMessageResolve (message answer newMessage : String) : String :=
  if jsToLower (jsTrim answer) = "" ∨ jsToLower (jsTrim answer) = "y" ∨
      jsToLower (jsTrim answer) = "yes" then
    message
  else if jsToLower (jsTrim answer) = "n" ∨ jsToLower (jsTrim answer) = "no" then
    if jsTrim newMessage = "" then message else jsTrim newMessage
  else
    jsTrim answer

/-- Whether `confirmCommitMessage` asks the second question (reads a
replacement line) for a given first answer. -/
def confirmAsksReplacement (answer : String) : Bool :=
  !(jsToLower (jsTrim answer) = "" ∨ jsToLower (jsTrim answer) = "y" ∨
      jsToLower (jsTrim answer) = "yes" : Bool) &&
    (jsToLower (jsTrim answer) = "n" ∨ jsToLower (jsTrim answer) = "no" : Bool)

/-! ## `lib/formatter.ts` — file saving

The `fs.writeFileSync` call is passed in as its outcome (`Except.ok` for a
successful write, `Except.error` carrying the thrown error's text).  Each
save helper returns the console lines it prints and the exit status it
propagates; the `try`/`catch` in the source is modelled by matching on the
outcome. -/

/-- The file name `savePRDescription` builds:
`pr-description-` + branch with `[^a-zA-Z0-9]` characters replaced by `-` + `.md`. -/
def savePRFilename (branchName : String) : String :=
  "pr-description-" ++
    (⟨branchName.data.map fun c =>
      if ('a' ≤ c ∧ c ≤ 'z') ∨ ('A' ≤ c ∧ c ≤ 'Z') ∨ ('0' ≤ c ∧ c ≤ '9') then c
      else '-'⟩ : String) ++ ".md"

/-- The file name `saveCodeReview` builds from the ISO timestamp:
`code-review-` + timestamp with `:` and `.` replaced by `-` + `.md`. -/
def codeReviewFilename (isoTimestamp : String) : String :=
  "code-review-" ++
    (⟨isoTimestamp.data.map fun c => if c = ':' ∨ c = '.' then '-' else c⟩ : String) ++
    ".md"

/-- `savePRDescription`: (console output, propagated exit status). -/
def savePRDescriptionRun (branchName : String) (writeOutcome : Except String Unit) :
    List String × Option Nat :=
  match writeOutcome with
  | .ok _ => (["✅ PR description saved to: " ++ savePRFilename branchName], none)
  | .error e => (["❌ Failed to save PR description: " ++ e], none)

/-- `saveCodeReview`: (console output, propagated exit status). -/
def saveCodeReviewRun (isoTimestamp : String) (writeOutcome : Except String Unit) :
    List String × Option Nat :=
  match writeOutcome with
  | .ok _ => (["✅ Code review saved to: " ++ codeReviewFilename isoTimestamp], none)
  | .error e => (["❌ Failed to save code review: " ++ e], none)

/-- `editPRDescription`: (console output, propagated exit status). -/
def editPRDescriptionRun (branchName : String) (writeOutcome : Except String Unit) :
    List String × Option Nat :=
  match writeOutcome with
  | .ok _ =>
    (["📝 PR description saved to: " ++ savePRFilename branchName,
      "Edit the file and run the command again if needed."], none)
  | .error e => (["❌ Failed to save PR description for editing: " ++ e], none)

/-- Outcome of `confirmPRDescription`: what it printed after the banner,
whether its promise resolved, and the exit status it propagates. -/
structure ConfirmPROutcome where
  output : List String
  resolved : Bool
  exitStatus : Option Nat
  deriving DecidableEq, Repr

/-- `confirmPRDescription` after the user's answer to `Save to file? (y/n/edit)`. -/
def confirmPRDescriptionFlow (branchName answer : String)
    (writeOutcome : Except String Unit) : ConfirmPROutcome :=
  if jsToLower (jsTrim answer) = "y" ∨ jsToLower (jsTrim answer) = "yes" ∨
      jsToLower (jsTrim answer) = "" then
    { output := (savePRDescriptionRun branchName writeOutcome).1
      resolved := true
      exitStatus := (savePRDescriptionRun branchName writeOutcome).2 }
  else if jsToLower (jsTrim answer) = "edit" ∨ jsToLower (jsTrim answer) = "e" then
    { output := (editPRDescriptionRun branchName writeOutcome).1
      resolved := true
      exitStatus := (editPRDescriptionRun branchName writeOutcome).2 }
  else
    { output := ["PR description not saved."], resolved := true, exitStatus := none }

/-- `displayCodeReview` after the user's answer to `Save review to file? (y/n)`. -/
def displayCodeReviewFlow (isoTimestamp answer : String)
    (writeOutcome : Except String Unit) : ConfirmPROutcome :=
  if jsToLower (jsTrim answer) = "y" ∨ jsToLower (jsTrim answer) = "yes" then
    { output := (saveCodeReviewRun isoTimestamp writeOutcome).1
      resolved := true
      exitStatus := (saveCodeReviewRun isoTimestamp writeOutcome).2 }
  else
    { output := ["Review not saved."], resolved := true, exitStatus := none }

/-! ## `lib/git.ts` — version-control adapter

Each operation shells out to git; the git output consumed by an operation is
passed in as an argument (`Option` when the underlying command can throw:
`none` stands for the `catch` path). -/

/-- `getMainBranch`, applied to the output of `git branch -r` (`none` when the
command threw). -/
def getMainBranch (listing : Option String) : String :=
  match listing with
  | none => "main"
  | some branches =>
    if strIncludes branches "origin/main" then "main"
    else if strIncludes branches "origin/master" then "master"
    else if strIncludes branches "origin/develop" then "develop"
    else "main"

/-- The exact shell command string `commitChanges(message)` passes to
`execSync` — the template literal interpolates the message with no escaping. -/
def commitChangesCommand (message : String) : String :=
  "git commit -m \"" ++ message ++ "\""

/-! ## `lib/ai.ts` — text-generation client -/

/-- `getModel()`: `process.env.OPENAI_MODEL || 'gpt-3.5-turbo'` (the empty
string is falsy in JavaScript, so it also falls back to the default). -/
def getModel (envModel : Option String) : String :=
  match envModel with
  | some m => if m = "" then "gpt-3.5-turbo" else m
  | none => "gpt-3.5-turbo"

/-- The request parameters relevant to the claims: which model identifier a
chat-completion call sends, and its output-length cap. -/
structure ChatRequest where
  model : String
  maxTokens : Nat
  deriving DecidableEq, Repr

/-- The request `generateCommitMessage` sends (model from `getModel()`,
`max_tokens: 100`). -/
def generateCommitMessageRequest (envModel : Option String) : ChatRequest :=
  { model := getModel envModel, maxTokens := 100 }

/-- The request `generatePRDescription` sends (model from `getModel()`,
`max_tokens: 800`). -/
def generatePRDescriptionRequest (envModel : Option String) : ChatRequest :=
  { model := getModel envModel, maxTokens := 800 }

/-- The request `performCodeReview` sends (model from `getModel()`,
`max_tokens: 1000`). -/
def performCodeReviewRequest (envModel : Option String) : ChatRequest :=
  { model := getModel envModel, maxTokens := 1000 }

/-! ## `bin/ai-commit.ts` — command-line entry point -/

/-- The record `parseArgs` returns. -/
structure ParsedArgs where
  command : String
  model : Option String
  otherArgs : List String
  deriving DecidableEq, Repr

/-- The membership test of `parseArgs`'s `else if` branch. -/
def isCommandName (a : String) : Bool :=
  ["commit", "pr", "review", "help", "--help", "-h"].contains a

/-- The argument-scanning loop of `parseArgs`.  `args[i] === '--model' &&
args[i + 1]` holds when the next argument exists and is truthy (non-empty);
that branch consumes two arguments. -/
def parseArgsGo (cmd : String) (model : Option String) (others : List String) :
    List String → ParsedArgs
  | [] => { command := cmd, model := model, otherArgs := others }
  | [a] =>
    if isCommandName a then { command := a, model := model, otherArgs := others }
    else { command := cmd, model := model, otherArgs := others ++ [a] }
  | a :: b :: rest =>
    if a = "--model" ∧ b ≠ "" then parseArgsGo cmd (some b) others rest
    else if isCommandName a then parseArgsGo a model others (b :: rest)
    else parseArgsGo cmd model (others ++ [a]) (b :: rest)

/-- `parseArgs()` over `process.argv.slice(2)`; the command starts as
`'commit'`. -/
def parseArgs (args : List String) : ParsedArgs :=
  parseArgsGo "commit" none [] args

/-- What the `switch` in the entry point's main body dispatches to. -/
inductive MainAction where
  | runCommit
  | runPR
  | runReview
  | showHelp
  | showHelpExit1
  deriving DecidableEq, Repr

/-- The `switch (command)` of the main body, including the `default` branch
(`command.startsWith('-')` → help text and `process.exit(1)`; otherwise the
commit flow). -/
def dispatchCommand (command : String) : MainAction :=
  if command = "commit" then .runCommit
  else if command = "pr" then .runPR
  else if command = "review" then .runReview
  else if command = "help" ∨ command = "--help" ∨ command = "-h" then .showHelp
  else if command.startsWith "-" then .showHelpExit1
  else .runCommit

/-- The action the entry point takes for an argument vector. -/
def entryPointAction (args : List String) : MainAction :=
  dispatchCommand (parseArgs args).command

/-- Whether an action is the print-usage-and-exit-1 branch. -/
def isUsageExit : MainAction → Bool
  | .showHelpExit1 => true
  | _ => false

/-- `if (model) { process.env.OPENAI_MODEL = model; }` — the `--model` value
overrides the configured model for the invocation when truthy. -/
def applyModelFlag (parsedModel : Option String) (env0 : Option String) :
    Option String :=
  match parsedModel with
  | some m => if m = "" then env0 else some m
  | none => env0

/-- The `OPENAI_MODEL` value in effect for an invocation, from the argument
vector and the environment's initial value. -/
def invocationEnvModel (args : List String) (env0 : Option String) : Option String :=
  applyModelFlag (parseArgs args).model env0

/-! ## Workflow orchestrators

Each flow is embedded as a function from its external inputs (git output,
generation and confirmation results) to a record of observable effects. -/

/-- Effects of `runCommit` in `bin/ai-commit.ts`. -/
structure CommitFlowResult where
  /-- The diffs passed to `generateCommitMessage`, in order. -/
  genCalls : List String
  /-- How many times the confirmation step ran. -/
  confirmCalls : Nat
  /-- The message handed to `commitChanges`, when a commit was made. -/
  committed : Option String
  exitStatus : Option Nat
  output : List String
  deriving DecidableEq, Repr

/-- `runCommit`: the guard is `if (!diff)` — it fires only when the staged
diff is the empty string. -/
def runCommitFlow (diff : String) (gen : String → String)
    (confirm : String → String) : CommitFlowResult :=
  if diff = "" then
    { genCalls := [], confirmCalls := 0, committed := none, exitStatus := some 0
      output := ["No staged changes detected."] }
  else
    { genCalls := [diff], confirmCalls := 1, committed := some (confirm (gen diff))
      exitStatus := none, output := [] }

/-- Effects of `performCodeReview` in `lib/review.ts`. -/
structure ReviewFlowResult where
  genCalls : List String
  displayed : Option String
  exitStatus : Option Nat
  output : List String
  deriving DecidableEq, Repr

/-- `performCodeReview`: exits 1 outside a repository; the empty-diff guard is
`if (!diff.trim())`. -/
def performCodeReviewFlow (isRepo : Bool) (diff : String)
    (gen : String → String) : ReviewFlowResult :=
  if !isRepo then
    { genCalls := [], displayed := none, exitStatus := some 1
      output := ["❌ Not in a git repository"] }
  else if jsTrim diff = "" then
    { genCalls := [], displayed := none, exitStatus := none
      output := ["🔍 Analyzing staged changes for code review...",
                 "❌ No staged changes detected",
                 "Use `git add` to stage files for review"] }
  else
    { genCalls := [diff], displayed := some (gen diff), exitStatus := none
      output := ["🔍 Analyzing staged changes for code review...",
                 "🤖 Performing AI code review..."] }

/-- The git state `generatePRDescription` reads. -/
structure GitEnv where
  isRepo : Bool
  currentBranch : String
  branchCommits : String
  branchDiff : String
  deriving DecidableEq, Repr

/-- Effects of `generatePRDescription` in `lib/pr.ts`. -/
structure PRFlowResult where
  branchCommitsCalls : Nat
  branchDiffCalls : Nat
  genCalls : Nat
  confirmCalls : Nat
  /-- Whether the on-a-main-branch warning was printed. -/
  warnedMainBranch : Bool
  /-- The count in the `📝 Found N commit(s) in this branch` message, when the
  flow reached the counting step. -/
  reportedCount : Option Nat
  exitStatus : Option Nat
  deriving DecidableEq, Repr

/-- `generatePRDescription`: repository check, trunk-branch guard, commit
listing (with the `Found N commit(s)` count `commits.split('\n').filter(line
=> line.trim()).length`), diff check, then generation and confirmation. -/
def generatePRDescriptionFlow (env : GitEnv) : PRFlowResult :=
  if !env.isRepo then
    { branchCommitsCalls := 0, branchDiffCalls := 0, genCalls := 0
      confirmCalls := 0, warnedMainBranch := false, reportedCount := none
      exitStatus := some 1 }
  else if ["main", "master", "develop"].contains env.currentBranch then
    { branchCommitsCalls := 0, branchDiffCalls := 0, genCalls := 0
      confirmCalls := 0, warnedMainBranch := true, reportedCount := none
      exitStatus := none }
  else if jsTrim env.branchCommits = "" then
    { branchCommitsCalls := 1, branchDiffCalls := 0, genCalls := 0
      confirmCalls := 0, warnedMainBranch := false, reportedCount := none
      exitStatus := none }
  else if jsTrim env.branchDiff = "" then
    { branchCommitsCalls := 1, branchDiffCalls := 1, genCalls := 0
      confirmCalls := 0, warnedMainBranch := false
      reportedCount := some
        (((splitLines env.branchCommits).filter fun l => jsTrim l ≠ "").length)
      exitStatus := none }
  else
    { branchCommitsCalls := 1, branchDiffCalls := 1, genCalls := 1
      confirmCalls := 1, warnedMainBranch := false
      reportedCount := some
        (((splitLines env.branchCommits).filter fun l => jsTrim l ≠ "").length)
      exitStatus := none }

/-- The spec's reading of the commit count: the number of lines of the text
that are non-blank after trimming. -/
def nonBlankLineCount (s : String) : Nat :=
  (splitLines s).countP fun l => jsTrim l ≠ ""

/-! ## A minimal shell model

`commitChanges` interpolates the resolved message into a double-quoted shell
word with no escaping.  To state what that means, we model the fragment of
POSIX shell parsing the command shape exercises: space-separated words,
double-quote grouping (a `"` toggles quoting and is consumed, never part of a
word), and the fact that an unescaped `$` or backtick anywhere in such a
command starts a substitution instead of standing for itself. -/

/-- Characters that begin a substitution when unescaped (both inside and
outside double quotes): `$` and the backtick. -/
def isSubstChar (c : Char) : Bool :=
  c = '$' || c = '\x60'

/-- Word-splitting with double-quote grouping.  `cur = none` means no word is
open; opening or closing a quote opens the word (so `""` yields an empty
word). -/
def dqWordsAux : List Char → Bool → Option (List Char) → List String → List String
  | [], _, cur, acc =>
    match cur with
    | some w => acc ++ [⟨w⟩]
    | none => acc
  | c :: rest, inQuotes, cur, acc =>
    if c = '\"' then dqWordsAux rest (!inQuotes) (some (cur.getD [])) acc
    else if c = ' ' ∧ inQuotes = false then
      match cur with
      | some w => dqWordsAux rest inQuotes none (acc ++ [⟨w⟩])
      | none => dqWordsAux rest inQuotes none acc
    else dqWordsAux rest inQuotes (some (cur.getD [] ++ [c])) acc

/-- The words the shell splits a command string into. -/
def shellWords (s : String) : List String :=
  dqWordsAux s.data false none []

/-- Whether the shell would perform a substitution somewhere in the command
(an unescaped `$` or backtick occurs; the commands modelled here contain no
escapes and no single quotes). -/
def shellHasSubstitution (s : String) : Bool :=
  s.data.any isSubstChar

/-! ## Helper lemmas -/

/-- The scanning loop only ever stores a recognised command name on top of a
recognised starting value. -/
theorem parseArgsGo_command_valid :
    ∀ (args : List String) (cmd : String) (model : Option String)
      (others : List String), isCommandName cmd = true →
      isCommandName (parseArgsGo cmd model others args).command = true
  | [], _, _, _, h => h
  | [a], _, _, _, h => by
    by_cases ha : isCommandName a
    · simp [parseArgsGo, ha]
    · simp [parseArgsGo, ha, h]
  | a :: b :: rest, cmd, model, others, h => by
    by_cases h1 : a = "--model" ∧ b ≠ ""
    · simpa [parseArgsGo, h1] using
        parseArgsGo_command_valid rest cmd (some b) others h
    · by_cases h2 : isCommandName a
      · simpa [parseArgsGo, h1, h2] using
          parseArgsGo_command_valid (b :: rest) a model others h2
      · simpa [parseArgsGo, h1, h2] using
          parseArgsGo_command_valid (b :: rest) cmd model (others ++ [a]) h

/-- The command `parseArgs` returns is always one of the recognised names. -/
theorem parseArgs_command_valid (args : List String) :
    isCommandName (parseArgs args).command = true :=
  parseArgsGo_command_valid args "commit" none [] (by decide)

/-- The scanning loop only stores a non-empty model value (the `&& args[i+1]`
truthiness check). -/
theorem parseArgsGo_model_nonempty :
    ∀ (args : List String) (cmd : String) (model : Option String)
      (others : List String) (m : String), (∀ x, model = some x → x ≠ "") →
      (parseArgsGo cmd model others args).model = some m → m ≠ ""
  | [], _, _, _, m, hinv, h => hinv m h
  | [a], _, _, _, m, hinv, h => by
    by_cases ha : isCommandName a
    · simp only [parseArgsGo, if_pos ha] at h
      exact hinv m h
    · simp only [parseArgsGo, if_neg ha] at h
      exact hinv m h
  | a :: b :: rest, cmd, model, others, m, hinv, h => by
    by_cases h1 : a = "--model" ∧ b ≠ ""
    · rw [parseArgsGo, if_pos h1] at h
      exact parseArgsGo_model_nonempty rest cmd (some b) others m
        (fun x hx => Option.some.inj hx ▸ h1.2) h
    · by_cases h2 : isCommandName a
      · rw [parseArgsGo, if_neg h1, if_pos h2] at h
        exact parseArgsGo_model_nonempty (b :: rest) a model others m hinv h
      · rw [parseArgsGo, if_neg h1, if_neg h2] at h
        exact parseArgsGo_model_nonempty (b :: rest) cmd model (others ++ [a]) m hinv h

/-- A `--model` value extracted by `parseArgs` is never the empty string. -/
theorem parseArgs_model_nonempty (args : List String) (m : String)
    (h : (parseArgs args).model = some m) : m ≠ "" :=
  parseArgsGo_model_nonempty args "commit" none [] m (fun _ hx => by cases hx) h

/-- Unfolding `isCommandName` into the six possible command strings. -/
theorem isCommandName_cases (c : String) (h : isCommandName c = true) :
    c = "commit" ∨ c = "pr" ∨ c = "review" ∨ c = "help" ∨ c = "--help" ∨ c = "-h" := by
  simp only [isCommandName, List.contains_eq_any_beq, List.any_cons, List.any_nil,
    Bool.or_eq_true, beq_iff_eq] at h
  tauto

/-- Every recognised command name dispatches somewhere other than the
print-usage-and-exit-1 branch. -/
theorem dispatchCommand_valid_not_usage (c : String) (h : isCommandName c = true) :
    isUsageExit (dispatchCommand c) = false := by
  rcases isCommandName_cases c h with rfl | rfl | rfl | rfl | rfl | rfl <;> decide

/-- Words produced by double-quote word splitting never contain a
double-quote character: the quotes themselves are consumed as delimiters. -/
theorem dqWordsAux_no_quote :
    ∀ (input : List Char) (inQuotes : Bool) (cur : Option (List Char))
      (acc : List String), (∀ w ∈ acc, '\"' ∉ w.data) →
      (∀ cw, cur = some cw → '\"' ∉ cw) →
      ∀ w ∈ dqWordsAux input inQuotes cur acc, '\"' ∉ w.data
  | [], inQ, cur, acc, hacc, hcur, w, hw => by
    cases cur with
    | none => exact hacc w (by simpa [dqWordsAux] using hw)
    | some cw =>
      simp only [dqWordsAux, List.mem_append, List.mem_singleton] at hw
      rcases hw with hw | hw
      · exact hacc w hw
      · subst hw
        exact hcur cw rfl
  | c :: rest, inQ, cur, acc, hacc, hcur, w, hw => by
    simp only [dqWordsAux] at hw
    by_cases h1 : c = '\"'
    · rw [if_pos h1] at hw
      refine dqWordsAux_no_quote rest (!inQ) (some (cur.getD [])) acc hacc ?_ w hw
      intro cw hcw
      cases cur with
      | none =>
        cases hcw
        simp
      | some l =>
        cases hcw
        exact hcur l rfl
    · rw [if_neg h1] at hw
      by_cases h2 : c = ' ' ∧ inQ = false
      · rw [if_pos h2] at hw
        cases cur with
        | none =>
          exact dqWordsAux_no_quote rest inQ none acc hacc (fun cw hcw => by cases hcw) w hw
        | some l =>
          refine dqWordsAux_no_quote rest inQ none (acc ++ [⟨l⟩]) ?_
            (fun cw hcw => by cases hcw) w hw
          intro w' hw'
          rcases List.mem_append.mp hw' with hm | hm
          · exact hacc w' hm
          · rw [List.mem_singleton.mp hm]
            exact hcur l rfl
      · rw [if_neg h2] at hw
        refine dqWordsAux_no_quote rest inQ (some (cur.getD [] ++ [c])) acc hacc ?_ w hw
        intro cw hcw
        cases hcw
        intro hmem
        rcases List.mem_append.mp hmem with hm | hm
        · cases cur with
          | none => simp at hm
          | some l => exact hcur l rfl hm
        · exact h1 (List.mem_singleton.mp hm).symm

/-- No word of a shell-split command contains a double-quote character. -/
theorem shellWords_no_quote (s : String) : ∀ w ∈ shellWords s, '\"' ∉ w.data :=
  dqWordsAux_no_quote s.data false none [] (by simp) (fun _ hx => by cases hx)

/-- The regex character class `[a-zA-Z0-9]` coincides with the library's
ASCII-alphanumeric predicate. -/
theorem regexClass_eq_isAlphanum (c : Char) :
    (('a' ≤ c ∧ c ≤ 'z') ∨ ('A' ≤ c ∧ c ≤ 'Z') ∨ ('0' ≤ c ∧ c ≤ '9')) ↔
      c.isAlphanum = true := by
  simp only [Char.isAlphanum, Char.isAlpha, Char.isDigit, Char.isUpper, Char.isLower,
    Char.le_def, Bool.or_eq_true, Bool.and_eq_true, decide_eq_true_eq]
  constructor
  · rintro (⟨h1, h2⟩ | ⟨h1, h2⟩ | ⟨h1, h2⟩)
    · exact Or.inl (Or.inr ⟨h1, h2⟩)
    · exact Or.inl (Or.inl ⟨h1, h2⟩)
    · exact Or.inr ⟨h1, h2⟩
  · rintro ((⟨h1, h2⟩ | ⟨h1, h2⟩) | ⟨h1, h2⟩)
    · exact Or.inr (Or.inl ⟨h1, h2⟩)
    · exact Or.inl ⟨h1, h2⟩
    · exact Or.inr (Or.inr ⟨h1, h2⟩)

/-! ## Claim theorems -/

/-- C1, counterexample: the claim says any other first input resolves to
that input verbatim, and that a `n`/`no` replacement is used as given; the
code resolves to the *trimmed* input (` custom message ` → `custom message`)
and to the *trimmed* replacement (` new message ` → `new message`), so both
resolutions differ from the claimed verbatim values. -/
theorem c1_verbatim_counterexample :
    (jsToLower (jsTrim " custom message ") == "") = false ∧
    (jsToLower (jsTrim " custom message ") == "y") = false ∧
    (jsToLower (jsTrim " custom message ") == "yes") = false ∧
    (jsToLower (jsTrim " custom message ") == "n") = false ∧
    (jsToLower (jsTrim " custom message ") == "no") = false ∧
    confirmCommitMessageResolve "orig" " custom message " "x" = "custom message" ∧
    (confirmCommitMessageResolve "orig" " custom message " "x" == " custom message ") = false ∧
    confirmCommitMessageResolve "orig" "n" " new message " = "new message" ∧
    (confirmCommitMessageResolve "orig" "n" " new message " == " new message ") = false := by
  decide

/-- C1 (amended): if the first answer, trimmed and lowercased, is `""`, `y`
or `yes`, the confirmation resolves to the original message unchanged and no
replacement is read; if it is `n` or `no`, a replacement is read and the
confirmation resolves to the *trimmed* replacement when that is non-empty and
to the original message when it is empty; any other first answer resolves to
that answer *trimmed of surrounding whitespace*. -/
theorem c1_confirmation_resolution (message answer newMessage : String) :
    ((jsToLower (jsTrim answer) = "" ∨ jsToLower (jsTrim answer) = "y" ∨
        jsToLower (jsTrim answer) = "yes") →
      confirmCommitMessageResolve message answer newMessage = message ∧
      confirmAsksReplacement answer = false) ∧
    ((jsToLower (jsTrim answer) = "n" ∨ jsToLower (jsTrim answer) = "no") →
      confirmAsksReplacement answer = true ∧
      (jsTrim newMessage ≠ "" →
        confirmCommitMessageResolve message answer newMessage = jsTrim newMessage) ∧
      (jsTrim newMessage = "" →
        confirmCommitMessageResolve message answer newMessage = message)) ∧
    (jsToLower (jsTrim answer) ≠ "" → jsToLower (jsTrim answer) ≠ "y" →
      jsToLower (jsTrim answer) ≠ "yes" → jsToLower (jsTrim answer) ≠ "n" →
      jsToLower (jsTrim answer) ≠ "no" →
      confirmCommitMessageResolve message answer newMessage = jsTrim answer) := by
  refine ⟨?_, ?_, ?_⟩
  · intro h
    constructor
    · unfold confirmCommitMessageResolve
      rw [if_pos h]
    · unfold confirmAsksReplacement
      rw [decide_eq_true h]
      simp
  · intro h
    have hne1 : ¬(jsToLower (jsTrim answer) = "" ∨ jsToLower (jsTrim answer) = "y" ∨
        jsToLower (jsTrim answer) = "yes") := by
      rcases h with h | h <;> rw [h] <;> decide
    refine ⟨?_, ?_, ?_⟩
    · unfold confirmAsksReplacement
      rw [decide_eq_true h, decide_eq_false hne1]
      simp
    · intro hnm
      unfold confirmCommitMessageResolve
      rw [if_neg hne1, if_pos h, if_neg hnm]
    · intro hnm
      unfold confirmCommitMessageResolve
      rw [if_neg hne1, if_pos h, if_pos hnm]
  · intro h1 h2 h3 h4 h5
    have hne1 : ¬(jsToLower (jsTrim answer) = "" ∨ jsToLower (jsTrim answer) = "y" ∨
        jsToLower (jsTrim answer) = "yes") := by simp [h1, h2, h3]
    have hne2 : ¬(jsToLower (jsTrim answer) = "n" ∨ jsToLower (jsTrim answer) = "no") := by
      simp [h4, h5]
    unfold confirmCommitMessageResolve
    rw [if_neg hne1, if_neg hne2]

/-- C1 witness: `n` followed by ` replacement ` yields the trimmed
replacement, and the second question is asked. -/
theorem c1_confirmation_resolution_witness :
    confirmAsksReplacement "n" = true ∧
    confirmCommitMessageResolve "orig" "n" " replacement " = "replacement" := by
  have h := (c1_confirmation_resolution "orig" "n" " replacement ").2.1 (by decide)
  exact ⟨h.1, (h.2.1 (by decide)).trans (by decide)⟩

/-- C2, counterexample: a whitespace-only (but non-empty) staged diff does
not short-circuit the commit flow — `runCommit` guards with `if (!diff)`, so
the diff `" "` reaches the generation step and no status-0 exit happens. -/
theorem c2_whitespace_commit_counterexample :
    jsTrim " " = "" ∧
    (runCommitFlow " " (fun _ => "feat: x") (fun m => m)).genCalls = [" "] ∧
    (runCommitFlow " " (fun _ => "feat: x") (fun m => m)).exitStatus = none := by
  refine ⟨by decide, ?_, ?_⟩ <;> rfl

/-- C2 (amended): an *exactly empty* staged diff makes the commit flow report
and exit with status 0 without calling the text-generation step; an empty or
whitespace-only staged diff makes the review flow (inside a repository)
report and return without calling the text-generation step. -/
theorem c2_empty_diff_short_circuit (diff : String) (gen : String → String)
    (confirm : String → String) :
    (diff = "" →
      (runCommitFlow diff gen confirm).genCalls = [] ∧
      (runCommitFlow diff gen confirm).exitStatus = some 0 ∧
      (runCommitFlow diff gen confirm).committed = none) ∧
    (jsTrim diff = "" →
      (performCodeReviewFlow true diff gen).genCalls = [] ∧
      (performCodeReviewFlow true diff gen).exitStatus = none ∧
      (performCodeReviewFlow true diff gen).displayed = none) := by
  constructor
  · intro h
    unfold runCommitFlow
    rw [if_pos h]
    exact ⟨rfl, rfl, rfl⟩
  · intro h
    unfold performCodeReviewFlow
    rw [if_pos h]
    exact ⟨rfl, rfl, rfl⟩

/-- C2 witness: the empty diff short-circuits the commit flow, and a
whitespace-only diff short-circuits the review flow. -/
theorem c2_empty_diff_short_circuit_witness :
    (runCommitFlow "" (fun _ => "feat: x") (fun m => m)).genCalls = [] ∧
    (performCodeReviewFlow true "  \n " (fun _ => "review")).genCalls = [] := by
  have h1 := (c2_empty_diff_short_circuit "" (fun _ => "feat: x") (fun m => m)).1 rfl
  have h2 := (c2_empty_diff_short_circuit "  \n " (fun _ => "review") (fun m => m)).2 (by decide)
  exact ⟨h1.1, h2.1⟩

/-- C3: contrary to the claim (and to the intent of the dead `default`
branch of the entry point's `switch`), an unrecognised flag-like argument
does not print usage and exit with status 1 — `parseArgs` pushes it into the
unused `otherArgs` list and leaves the command at `commit`, so the entry
point dispatches to the commit flow; the usage-exit branch is unreachable
for every argument vector.  The non-flag half of the claim does hold:
unrecognised non-flag arguments also dispatch to the commit flow. -/
theorem c3_unknown_flag_dispatch :
    (parseArgs ["--verbose"]).command = "commit" ∧
    (parseArgs ["--verbose"]).otherArgs = ["--verbose"] ∧
    entryPointAction ["--verbose"] = MainAction.runCommit ∧
    entryPointAction ["unknown"] = MainAction.runCommit ∧
    (∀ args : List String, isUsageExit (entryPointAction args) = false) := by
  refine ⟨by decide, by decide, by decide, by decide, ?_⟩
  intro args
  exact dispatchCommand_valid_not_usage _ (parseArgs_command_valid args)

/-- C4: when `--model <name>` is parsed from the argument vector, all three
chat-completion requests of the invocation carry that model identifier; when
no `--model` flag is parsed and no model is configured in the environment,
all three carry the default `gpt-3.5-turbo`. -/
theorem c4_model_selection (args : List String) (env0 : Option String) :
    (∀ name : String, (parseArgs args).model = some name →
      (generateCommitMessageRequest (invocationEnvModel args env0)).model = name ∧
      (generatePRDescriptionRequest (invocationEnvModel args env0)).model = name ∧
      (performCodeReviewRequest (invocationEnvModel args env0)).model = name) ∧
    ((parseArgs args).model = none → env0 = none →
      (generateCommitMessageRequest (invocationEnvModel args env0)).model = "gpt-3.5-turbo" ∧
      (generatePRDescriptionRequest (invocationEnvModel args env0)).model = "gpt-3.5-turbo" ∧
      (performCodeReviewRequest (invocationEnvModel args env0)).model = "gpt-3.5-turbo") := by
  constructor
  · intro name h
    have hne : name ≠ "" := parseArgs_model_nonempty args name h
    have henv : invocationEnvModel args env0 = some name := by
      unfold invocationEnvModel applyModelFlag
      rw [h]
      simp [hne]
    rw [henv]
    simp [generateCommitMessageRequest, generatePRDescriptionRequest,
      performCodeReviewRequest, getModel, hne]
  · intro h1 h2
    have henv : invocationEnvModel args env0 = none := by
      unfold invocationEnvModel applyModelFlag
      rw [h1, h2]
    rw [henv]
    exact ⟨rfl, rfl, rfl⟩

/-- C4 witness: `--model gpt-4` makes the commit-message request use
`gpt-4`; no flag and no configured model gives the default. -/
theorem c4_model_selection_witness :
    (parseArgs ["--model", "gpt-4"]).model = some "gpt-4" ∧
    (generateCommitMessageRequest (invocationEnvModel ["--model", "gpt-4"] none)).model =
      "gpt-4" ∧
    (generateCommitMessageRequest (invocationEnvModel [] none)).model = "gpt-3.5-turbo" := by
  refine ⟨by decide, ?_, ?_⟩
  · exact ((c4_model_selection ["--model", "gpt-4"] none).1 "gpt-4" (by decide)).1
  · exact ((c4_model_selection [] none).2 (by decide) rfl).1

/-- C5: trunk-branch detection over the remote listing — `origin/main`
first, then `origin/master`, then `origin/develop`, then the `main`
fallback, and `main` again when reading the listing failed. -/
theorem c5_main_branch_detection (s : String) :
    (strIncludes s "origin/main" = true → getMainBranch (some s) = "main") ∧
    (strIncludes s "origin/main" = false → strIncludes s "origin/master" = true →
      getMainBranch (some s) = "master") ∧
    (strIncludes s "origin/main" = false → strIncludes s "origin/master" = false →
      strIncludes s "origin/develop" = true → getMainBranch (some s) = "develop") ∧
    (strIncludes s "origin/main" = false → strIncludes s "origin/master" = false →
      strIncludes s "origin/develop" = false → getMainBranch (some s) = "main") ∧
    getMainBranch none = "main" := by
  refine ⟨?_, ?_, ?_, ?_, rfl⟩ <;> intros <;> simp [getMainBranch, *]

/-- C5 witness: a listing with only `origin/master` (and a feature branch)
detects `master`. -/
theorem c5_main_branch_detection_witness :
    getMainBranch (some "  origin/master\n  origin/feature") = "master" :=
  (c5_main_branch_detection "  origin/master\n  origin/feature").2.1 (by decide) (by decide)

/-- C6: on a trunk branch (inside a repository), the PR flow warns and
returns without calling the branch-commit reader, the branch-diff reader,
the text-generation step, or the confirmation step. -/
theorem c6_pr_trunk_guard (env : GitEnv) (h1 : env.isRepo = true)
    (h2 : ["main", "master", "develop"].contains env.currentBranch = true) :
    (generatePRDescriptionFlow env).warnedMainBranch = true ∧
    (generatePRDescriptionFlow env).branchCommitsCalls = 0 ∧
    (generatePRDescriptionFlow env).branchDiffCalls = 0 ∧
    (generatePRDescriptionFlow env).genCalls = 0 ∧
    (generatePRDescriptionFlow env).confirmCalls = 0 ∧
    (generatePRDescriptionFlow env).exitStatus = none := by
  have h2' : env.currentBranch = "main" ∨ env.currentBranch = "master" ∨
      env.currentBranch = "develop" := by simpa using h2
  unfold generatePRDescriptionFlow
  rcases h2' with h | h | h <;> rw [h1, h] <;> exact ⟨rfl, rfl, rfl, rfl, rfl, rfl⟩

/-- C6 witness: on branch `main` the flow warns and performs no generation
call. -/
theorem c6_pr_trunk_guard_witness :
    (generatePRDescriptionFlow ⟨true, "main", "c1\nc2", "d"⟩).warnedMainBranch = true ∧
    (generatePRDescriptionFlow ⟨true, "main", "c1\nc2", "d"⟩).genCalls = 0 ∧
    (generatePRDescriptionFlow ⟨true, "main", "c1\nc2", "d"⟩).confirmCalls = 0 := by
  have h := c6_pr_trunk_guard ⟨true, "main", "c1\nc2", "d"⟩ rfl (by decide)
  exact ⟨h.1, h.2.2.2.1, h.2.2.2.2.1⟩

/-- C7: whenever the PR flow reaches the counting step, the count it reports
is the number of lines of the commits text that are non-blank after
trimming. -/
theorem c7_commit_count (env : GitEnv) (h1 : env.isRepo = true)
    (h2 : ["main", "master", "develop"].contains env.currentBranch = false)
    (h3 : jsTrim env.branchCommits ≠ "") :
    (generatePRDescriptionFlow env).reportedCount =
      some (nonBlankLineCount env.branchCommits) := by
  unfold generatePRDescriptionFlow nonBlankLineCount
  rw [h1, h2, List.countP_eq_length_filter, if_neg (by decide : ¬((!true) = true)),
    if_neg (by decide : ¬(false = true)), if_neg h3]
  split <;> rfl

/-- C7 witness: 3 non-blank lines among 4 total lines reports a count of 3. -/
theorem c7_commit_count_witness :
    (splitLines "abc feat: x\n   \ndef fix: y\nghi docs: z").length = 4 ∧
    (generatePRDescriptionFlow
        ⟨true, "feature/x", "abc feat: x\n   \ndef fix: y\nghi docs: z", "diff"⟩).reportedCount =
      some 3 := by
  have h := c7_commit_count
    ⟨true, "feature/x", "abc feat: x\n   \ndef fix: y\nghi docs: z", "diff"⟩
    rfl (by decide) (by decide)
  exact ⟨by decide, h.trans (congrArg some (by decide))⟩

/-- C8: the PR-description file name is `pr-description-`, then the branch
name with every non-alphanumeric character replaced by `-`, then `.md`; in
particular `feature/test-branch/with-slashes` yields
`pr-description-feature-test-branch-with-slashes.md`. -/
theorem c8_pr_filename (branchName : String) :
    (savePRFilename branchName).data =
      "pr-description-".data ++
        (branchName.data.map fun c => if c.isAlphanum then c else '-') ++ ".md".data ∧
    savePRFilename "feature/test-branch/with-slashes" =
      "pr-description-feature-test-branch-with-slashes.md" := by
  constructor
  · have hfun : ∀ c : Char,
        (if ('a' ≤ c ∧ c ≤ 'z') ∨ ('A' ≤ c ∧ c ≤ 'Z') ∨ ('0' ≤ c ∧ c ≤ '9') then c
          else '-') =
        (if c.isAlphanum then c else '-') := by
      intro c
      by_cases h : ('a' ≤ c ∧ c ≤ 'z') ∨ ('A' ≤ c ∧ c ≤ 'Z') ∨ ('0' ≤ c ∧ c ≤ '9')
      · rw [if_pos h, if_pos ((regexClass_eq_isAlphanum c).mp h)]
      · rw [if_neg h, if_neg fun hb => h ((regexClass_eq_isAlphanum c).mpr hb)]
    show "pr-description-".data ++
        (branchName.data.map fun c =>
          if ('a' ≤ c ∧ c ≤ 'z') ∨ ('A' ≤ c ∧ c ≤ 'Z') ∨ ('0' ≤ c ∧ c ≤ '9') then c
          else '-') ++ ".md".data = _
    rw [funext hfun]
  · decide

/-- C8 witness: a branch name with slashes, dots and digits sanitises
character-by-character. -/
theorem c8_pr_filename_witness :
    savePRFilename "release/v1.2" = "pr-description-release-v1-2.md" := by
  have h := (c8_pr_filename "release/v1.2").1
  exact String.ext (h.trans (by decide))

/-- C9: when the underlying file write raises, each save helper catches the
failure, reports it, and returns normally (propagating no exit status), and
the enclosing confirmation flows still resolve normally. -/
theorem c9_save_failure_contained (branchName isoTimestamp e answer : String) :
    (savePRDescriptionRun branchName (Except.error e)).2 = none ∧
    (savePRDescriptionRun branchName (Except.error e)).1 =
      ["❌ Failed to save PR description: " ++ e] ∧
    (saveCodeReviewRun isoTimestamp (Except.error e)).2 = none ∧
    (saveCodeReviewRun isoTimestamp (Except.error e)).1 =
      ["❌ Failed to save code review: " ++ e] ∧
    (editPRDescriptionRun branchName (Except.error e)).2 = none ∧
    (editPRDescriptionRun branchName (Except.error e)).1 =
      ["❌ Failed to save PR description for editing: " ++ e] ∧
    (confirmPRDescriptionFlow branchName answer (Except.error e)).resolved = true ∧
    (confirmPRDescriptionFlow branchName answer (Except.error e)).exitStatus = none ∧
    (displayCodeReviewFlow isoTimestamp answer (Except.error e)).resolved = true ∧
    (displayCodeReviewFlow isoTimestamp answer (Except.error e)).exitStatus = none := by
  refine ⟨rfl, rfl, rfl, rfl, rfl, rfl, ?_, ?_, ?_, ?_⟩ <;>
    simp only [confirmPRDescriptionFlow, displayCodeReviewFlow] <;>
    split_ifs <;> rfl

/-- C9 witness: a failing write under a `y` answer is reported and the PR
confirmation flow still ends without an error status. -/
theorem c9_save_failure_contained_witness :
    (savePRDescriptionRun "feat/x" (Except.error "EACCES")).1 =
      ["❌ Failed to save PR description: EACCES"] ∧
    (confirmPRDescriptionFlow "feat/x" "y" (Except.error "EACCES")).exitStatus = none := by
  have h := c9_save_failure_contained "feat/x" "ts" "EACCES" "y"
  exact ⟨h.2.1, h.2.2.2.2.2.2.2.1⟩

/-- C10: `commitChanges` passes the shell exactly the concatenation
`git commit -m "` + message + `"` with no escaping, so a message containing
a double quote, `$` or backtick is not delivered to git literally: either
the double-quote word splitting yields something other than the intended
four words, or the shell performs a substitution inside the command. -/
theorem c10_commit_command_injection (m : String) :
    commitChangesCommand m = "git commit -m \"" ++ m ++ "\"" ∧
    (('\"' ∈ m.data ∨ '$' ∈ m.data ∨ '\x60' ∈ m.data) →
      ¬(shellWords (commitChangesCommand m) = ["git", "commit", "-m", m] ∧
        shellHasSubstitution (commitChangesCommand m) = false)) := by
  refine ⟨rfl, ?_⟩
  rintro h ⟨hw, hs⟩
  have hdata : (commitChangesCommand m).data =
      "git commit -m \"".data ++ m.data ++ "\"".data := rfl
  rcases h with h | h | h
  · have hmem : m ∈ shellWords (commitChangesCommand m) := by
      rw [hw]
      simp
    exact shellWords_no_quote (commitChangesCommand m) m hmem h
  · have : shellHasSubstitution (commitChangesCommand m) = true := by
      unfold shellHasSubstitution
      rw [hdata]
      refine List.any_eq_true.mpr ⟨'$', ?_, by decide⟩
      exact List.mem_append.mpr (Or.inl (List.mem_append.mpr (Or.inr h)))
    rw [hs] at this
    cases this
  · have : shellHasSubstitution (commitChangesCommand m) = true := by
      unfold shellHasSubstitution
      rw [hdata]
      refine List.any_eq_true.mpr ⟨'\x60', ?_, by decide⟩
      exact List.mem_append.mpr (Or.inl (List.mem_append.mpr (Or.inr h)))
    rw [hs] at this
    cases this

/-- C10 witness: the message `say "hi"` (which contains double quotes) is
not delivered literally. -/
theorem c10_commit_command_injection_witness :
    (shellWords (commitChangesCommand "say \"hi\"") =
        ["git", "commit", "-m", "say \"hi\""] ∧
      shellHasSubstitution (commitChangesCommand "say \"hi\"") = false) = False :=
  eq_false ((c10_commit_command_injection "say \"hi\"").2 (Or.inl (by decide)))

end AICommit
